import Mathlib

/-!
Verification development for the Elemental design-tool plugin
(src/code.ts).  The plugin's pure logic — the color codec, the style
extractor feeding selection snapshots, the copy-fill-color handler, and
the single/zip-batch export orchestrators — is embedded shallowly below.
Host calls (exportAsync, postMessage, notify) are modelled as an event
trace; the fallible host export call is a parameter returning
`Option`-wrapped bytes, so that a per-element failure pattern is an
arbitrary function.  JS numbers on the color path are embedded as `ℚ`
(the source only adds, subtracts, multiplies, divides and rounds values
derived from [0,1] channels, all exact here).
-/

namespace FigElemental

/-- An RGB color sample as the host hands it out: channels normalized to [0,1]. -/
structure Color where
  r : ℚ
  g : ℚ
  b : ℚ
deriving DecidableEq

/-- One entry of a node's `fills`/`strokes` array.  The source probes these
duck-typed: `fill.type`, the optional `fill.color`, and the optional
`fill.visible` flag are the only fields it reads. -/
structure Paint where
  ptype : String
  color : Option Color
  visible : Option Bool
deriving DecidableEq

/-- One entry of a node's `effects` array, with the fields the source reads:
`type`, `visible`, `color`, the optional `offset` record, `radius`, `spread`. -/
structure Effect where
  etype : String
  visible : Option Bool
  color : Option Color
  offset : Option (ℚ × ℚ)
  radius : Option ℚ
  spread : Option ℚ
deriving DecidableEq

/-- A scene node as the plugin observes it: display name, structural kind
string, and the three optional style arrays.  `none` stands for the property
being absent or not an array (the `'fills' in node && Array.isArray(...)`
guards of the source). -/
structure SceneNode where
  name : String
  ntype : String
  fills : Option (List Paint)
  strokes : Option (List Paint)
  effects : Option (List Effect)
deriving DecidableEq

/-- JS `Math.round`: round half toward positive infinity, `floor(x + 1/2)`.
`Rat.floor` is used so the definition evaluates. -/
def jsRound (q : ℚ) : ℤ := (q + 1/2).floor

/-- JS `String.prototype.toUpperCase` restricted to the ASCII strings the
plugin builds. -/
def jsToUpperCase (s : String) : String := String.mk (s.data.map Char.toUpper)

/-- JS `String.prototype.toLowerCase` restricted to ASCII. -/
def jsToLowerCase (s : String) : String := String.mk (s.data.map Char.toLower)

/-- JS `Number.prototype.toString(16)` on an integer: lowercase hex digits,
minus sign in front for negatives. -/
def intToHexString (i : ℤ) : String :=
  if i < 0 then "-" ++ String.mk (Nat.toDigits 16 i.natAbs)
  else String.mk (Nat.toDigits 16 i.toNat)

/-- The inner `toHex` helper of `rgbToHex` (src/code.ts:14-17): scale a
channel by 255, round, render in hex, left-pad to two digits. -/
def toHexByte (value : ℚ) : String :=
  let hex := intToHexString (jsRound (value * 255))
  if hex.length == 1 then "0" ++ hex else hex

/-- `rgbToHex` (src/code.ts:13-19): three padded hex bytes behind `#`, the
whole string upper-cased. -/
def rgbToHex (r g b : ℚ) : String :=
  jsToUpperCase ("#" ++ toHexByte r ++ toHexByte g ++ toHexByte b)

/-- `rgbToHsl` (src/code.ts:22-39): standard RGB to HSL conversion rendered
as `hsl(H, S%, L%)` with each component `Math.round`ed.  The JS `switch`
on `max` compares against `r`, `g`, `b` in that order. -/
def rgbToHsl (r g b : ℚ) : String :=
  let mx := max r (max g b)
  let mn := min r (min g b)
  let l := (mx + mn) / 2
  let hs : ℚ × ℚ :=
    if mx ≠ mn then
      let d := mx - mn
      let s := if l > 1/2 then d / (2 - mx - mn) else d / (mx + mn)
      let h :=
        if mx = r then (g - b) / d + (if g < b then 6 else 0)
        else if mx = g then (b - r) / d + 2
        else if mx = b then (r - g) / d + 4
        else 0
      (h / 6, s)
    else (0, 0)
  "hsl(" ++ toString (jsRound (hs.1 * 360)) ++ ", " ++
    toString (jsRound (hs.2 * 100)) ++ "%, " ++ toString (jsRound (l * 100)) ++ "%)"

/-- The `rgb(R, G, B)` rendering used by `getColorFromFill` (src/code.ts:656). -/
def rgbString (r g b : ℚ) : String :=
  "rgb(" ++ toString (jsRound (r * 255)) ++ ", " ++
    toString (jsRound (g * 255)) ++ ", " ++ toString (jsRound (b * 255)) ++ ")"

/-- The record `getColorFromFill` returns (src/code.ts:651-666): the same
color rendered four ways, `css` being an alias of `hex`. -/
structure ColorData where
  hex : String
  hsl : String
  rgb : String
  css : String
deriving DecidableEq

/-- `getColorFromFill` (src/code.ts:651-666): only a solid paint carrying a
defined color yields a record; anything else yields `null`. -/
def getColorFromFill (fill : Paint) : Option ColorData :=
  if fill.ptype == "SOLID" then
    match fill.color with
    | some c =>
        let hex := rgbToHex c.r c.g c.b
        some { hex := hex, hsl := rgbToHsl c.r c.g c.b,
               rgb := rgbString c.r c.g c.b, css := hex }
    | none => none
  else none

/-- JS bracket indexing `colorData[format]` over the four known keys;
an unknown key reads as `undefined`. -/
def ColorData.lookup (cd : ColorData) (key : String) : Option String :=
  if key == "hex" then some cd.hex
  else if key == "hsl" then some cd.hsl
  else if key == "rgb" then some cd.rgb
  else if key == "css" then some cd.css
  else none

/-- The `fillColor`/`strokeColor` payload of a selection snapshot
(src/code.ts:343-348): raw channels plus the hex rendering. -/
structure ColorInfo where
  r : ℚ
  g : ℚ
  b : ℚ
  hex : String
deriving DecidableEq

/-- One serialized shadow entry of a selection snapshot (src/code.ts:384-391). -/
structure ShadowInfo where
  x : ℚ
  y : ℚ
  blur : ℚ
  spread : ℚ
  color : Color
  stype : String
deriving DecidableEq

/-- The `selection-change` message payload built by `updateSelectionInfo`
(src/code.ts:402-411). -/
structure SelectionInfo where
  selectionCount : Nat
  formats : List String
  fillColor : Option ColorInfo
  strokeColor : Option ColorInfo
  shadow : Option (List ShadowInfo)
  fillCount : Nat
  strokeCount : Nat
deriving DecidableEq

/-- The messages the plugin posts to its UI, tagged like the JS envelopes. -/
inductive UIMessage
  | fileReady (filename : String) (bytes : List Nat) (format : String)
  | zipBatchStart (expectedFiles : Nat) (zipName : String)
  | zipFileReady (filename : String) (bytes : List Nat) (format : String)
  | zipBatchComplete (successCount : Nat) (errorCount : Nat)
  | selectionChange (info : SelectionInfo)
  | copyToClipboard (value : Option String)
  | themeChanged (theme : String)
deriving DecidableEq

/-- The export settings object handed to `exportAsync` (src/code.ts:129-149). -/
structure ExportConstraint where
  ctype : String
  value : ℚ
deriving DecidableEq

/-- Format plus optional scale constraint, as the source assembles it. -/
structure ExportSettings where
  format : String
  constraint : Option ExportConstraint
deriving DecidableEq

/-- Observable side effects of one orchestrator run: a host export call,
a `postMessage` to the UI, or a `figma.notify` toast. -/
inductive Event
  | exportCall (node : SceneNode) (settings : ExportSettings)
  | post (msg : UIMessage)
  | notify (message : String)
deriving DecidableEq

/-- The host `exportAsync` call, abstracted: `some bytes` on success, `none`
when the call raises.  Quantifying over this function quantifies over every
pattern of per-element failures. -/
def ExportFn : Type := SceneNode → ExportSettings → Option (List Nat)

/-- `canExportNode` (src/code.ts:193-211): fixed allow-list of node kinds. -/
def exportableTypes : List String :=
  ["FRAME", "GROUP", "COMPONENT", "COMPONENT_SET", "INSTANCE", "RECTANGLE",
   "ELLIPSE", "POLYGON", "STAR", "VECTOR", "TEXT", "LINE"]

/-- Whether a node's kind is on the exportable allow-list. -/
def canExportNode (node : SceneNode) : Bool :=
  exportableTypes.contains node.ntype

/-- The export-settings branch shared by both orchestrators
(src/code.ts:129-149): vector formats carry no constraint, raster formats a
SCALE constraint; the raster format string is upper-cased. -/
def mkExportSettings (format : String) (scale : ℚ) : ExportSettings :=
  if format == "SVG" then { format := "SVG", constraint := none }
  else if format == "PDF" then { format := "PDF", constraint := none }
  else { format := jsToUpperCase format,
         constraint := some { ctype := "SCALE", value := scale } }

/-- The `replace(/[^a-z0-9]/gi, '_')` step of filename derivation: ASCII
letters and digits survive, everything else becomes an underscore. -/
def sanitizeName (name : String) : String :=
  String.mk (name.data.map fun c => if c.isAlphanum then c else '_')

/-- Rendering of the scale number inside a filename.  JS prints decimals;
this injective num/den rendering stands in for it — no claim inspects the
scale portion of a filename. -/
def scaleStr (scale : ℚ) : String :=
  if scale.den == 1 then toString scale.num
  else toString scale.num ++ "d" ++ toString scale.den

/-- Filename derivation shared by both orchestrators (src/code.ts:155-156):
sanitized lower-cased node name, scale suffix, lower-cased extension. -/
def mkFilename (node : SceneNode) (scale : ℚ) (format : String) : String :=
  jsToLowerCase (sanitizeName node.name) ++ "_" ++ scaleStr scale ++ "x." ++
    jsToLowerCase format

/-- The failure-list entry both orchestrators push (src/code.ts:124, 170):
the node's display name followed by its kind in parentheses. -/
def errorEntry (node : SceneNode) : String :=
  node.name ++ " (" ++ node.ntype ++ ")"

/-- Result of one orchestrator run: its event trace plus the success tally
and failure list accumulated by the loop. -/
structure BatchRun where
  events : List Event
  successCount : Nat
  errorNodes : List String
deriving DecidableEq

/-- The per-node loop of `exportSelection` (src/code.ts:120-172): a
non-exportable node goes straight to the failure list; an exportable node
gets one host export call, on success a `file-ready` message and a tally
increment, on a raise a failure-list entry — and the loop always continues. -/
def exportLoop (exportFn : ExportFn) (scale : ℚ) (format : String) :
    List SceneNode → BatchRun
  | [] => ⟨[], 0, []⟩
  | node :: rest =>
    if canExportNode node then
      let settings := mkExportSettings format scale
      match exportFn node settings with
      | some bytes =>
        let r := exportLoop exportFn scale format rest
        ⟨Event.exportCall node settings ::
           Event.post (UIMessage.fileReady (mkFilename node scale format) bytes format) ::
           r.events,
         r.successCount + 1, r.errorNodes⟩
      | none =>
        let r := exportLoop exportFn scale format rest
        ⟨Event.exportCall node settings :: r.events,
         r.successCount, errorEntry node :: r.errorNodes⟩
    else
      let r := exportLoop exportFn scale format rest
      ⟨r.events, r.successCount, errorEntry node :: r.errorNodes⟩

/-- `exportSelection` (src/code.ts:107-190): empty selection short-circuits
with a single notice; otherwise the loop runs over the whole selection and
the aggregate notices follow (success summary when anything succeeded, the
layer-type hint when everything failed). -/
def exportSelection (exportFn : ExportFn) (selection : List SceneNode)
    (scale : ℚ) (format : String) : BatchRun :=
  if selection.length == 0 then
    ⟨[Event.notify "Please select a layer to export"], 0, []⟩
  else
    let r := exportLoop exportFn scale format selection
    ⟨r.events ++
       (if r.successCount > 0 then
          [Event.notify ("Exported " ++ toString r.successCount ++ " file(s) successfully!")]
        else []) ++
       (if r.errorNodes.length > 0 && r.successCount == 0 then
          [Event.notify "Cannot export selected layer type(s). Try selecting frames, groups, or components."]
        else []),
     r.successCount, r.errorNodes⟩

/-- The per-node loop of `batchExportForZip` (src/code.ts:246-292): the list
it runs over is already filtered to exportable nodes, so failures only come
from the host export call raising. -/
def zipLoop (exportFn : ExportFn) (scale : ℚ) (format : String) :
    List SceneNode → BatchRun
  | [] => ⟨[], 0, []⟩
  | node :: rest =>
    let settings := mkExportSettings format scale
    match exportFn node settings with
    | some bytes =>
      let r := zipLoop exportFn scale format rest
      ⟨Event.exportCall node settings ::
         Event.post (UIMessage.zipFileReady (mkFilename node scale format) bytes format) ::
         r.events,
       r.successCount + 1, r.errorNodes⟩
    | none =>
      let r := zipLoop exportFn scale format rest
      ⟨Event.exportCall node settings :: r.events,
       r.successCount, errorEntry node :: r.errorNodes⟩

/-- `batchExportForZip` (src/code.ts:214-313): empty selection and
one-element selection each short-circuit with a notice; the survivors are
filtered by exportability, an all-filtered selection short-circuits too;
otherwise `zip-batch-start` announces the filtered count, the loop runs, and
`zip-batch-complete` carries the tallies, followed by the success toast. -/
def batchExportForZip (exportFn : ExportFn) (selection : List SceneNode)
    (scale : ℚ) (format : String) : BatchRun :=
  if selection.length == 0 then
    ⟨[Event.notify "Please select layers to export as zip"], 0, []⟩
  else if selection.length == 1 then
    ⟨[Event.notify "Select multiple layers to create a zip file"], 0, []⟩
  else
    let exportableNodes := selection.filter canExportNode
    if exportableNodes.length == 0 then
      ⟨[Event.notify "No exportable layers selected"], 0, []⟩
    else
      let r := zipLoop exportFn scale format exportableNodes
      ⟨Event.post (UIMessage.zipBatchStart exportableNodes.length
           ("figma-export-" ++ toString exportableNodes.length ++ "-items.zip")) ::
         r.events ++
         [Event.post (UIMessage.zipBatchComplete r.successCount r.errorNodes.length)] ++
         (if r.successCount > 0 then
            [Event.notify ("Prepared " ++ toString r.successCount ++ " files for zip download!")]
          else []),
       r.successCount, r.errorNodes⟩

/-- The solid-paint predicate used on fills and strokes throughout the
source: `fill.type === 'SOLID'` and nothing else. -/
def isSolidPaint (p : Paint) : Bool := p.ptype == "SOLID"

/-- The fills/strokes block of `updateSelectionInfo` (src/code.ts:334-371),
identical for both lists: count the solid paints; only when exactly one
exists and it carries a color does a `ColorInfo` get built. -/
def solidPaintData (paints : Option (List Paint)) : Nat × Option ColorInfo :=
  match paints with
  | none => (0, none)
  | some ps =>
    let solids := ps.filter isSolidPaint
    let c : Option ColorInfo :=
      if solids.length == 1 then
        match solids.head? with
        | some p =>
          match p.color with
          | some col => some ⟨col.r, col.g, col.b, rgbToHex col.r col.g col.b⟩
          | none => none
        | none => none
      else none
    (solids.length, c)

/-- The effects block of `updateSelectionInfo` (src/code.ts:374-399): keep
drop/inner shadows, then keep those whose visibility is not explicitly false
and which carry a color, serialize each with defaulted offsets, and report
`none` when nothing survives. -/
def shadowData (effects : Option (List Effect)) : Option (List ShadowInfo) :=
  match effects with
  | none => none
  | some effs =>
    let shadowEffects :=
      effs.filter fun e => e.etype == "DROP_SHADOW" || e.etype == "INNER_SHADOW"
    if shadowEffects.length > 0 then
      let shadows :=
        (shadowEffects.filter fun e => e.visible != some false && e.color.isSome).filterMap
          fun e => e.color.map fun c =>
            ({ x := (e.offset.map Prod.fst).getD 0,
               y := (e.offset.map Prod.snd).getD 0,
               blur := e.radius.getD 0, spread := e.spread.getD 0, color := c,
               stype := if e.etype == "INNER_SHADOW" then "INNER" else "OUTER" } : ShadowInfo)
      if shadows.length == 0 then none else some shadows
    else none

/-- `updateSelectionInfo` (src/code.ts:316-414): style analysis runs only
for a single-element selection; otherwise only the count is reported. -/
def updateSelectionInfo (selection : List SceneNode) : SelectionInfo :=
  match selection with
  | [node] =>
    let fi := solidPaintData node.fills
    let si := solidPaintData node.strokes
    { selectionCount := 1, formats := ["PNG", "JPG", "SVG", "PDF"],
      fillColor := fi.2, strokeColor := si.2, shadow := shadowData node.effects,
      fillCount := fi.1, strokeCount := si.1 }
  | _ =>
    { selectionCount := selection.length, formats := ["PNG", "JPG", "SVG", "PDF"],
      fillColor := none, strokeColor := none, shadow := none,
      fillCount := 0, strokeCount := 0 }

/-- The `copy-fill-color` message handler (src/code.ts:929-944): first
selected node, `find` the first solid fill, turn it into a `ColorData`, and
post its `msg.format || 'hex'` rendering to the clipboard bridge.  Any
missing link yields no message. -/
def copyFillColor (selection : List SceneNode) (requestedFormat : Option String) :
    Option UIMessage :=
  match selection with
  | [] => none
  | node :: _ =>
    match node.fills with
    | none => none
    | some fills =>
      match fills.find? isSolidPaint with
      | none => none
      | some solidFill =>
        match getColorFromFill solidFill with
        | none => none
        | some colorData =>
          let fmt := match requestedFormat with
            | some s => if s.isEmpty then "hex" else s
            | none => "hex"
          some (UIMessage.copyToClipboard (colorData.lookup fmt))

/-- Modelled from the spec: the `PreferenceSet` owned by the
Session/Preferences Bridge.  No preferences code exists under src/ — the
bridge is specified in the natural-language spec only. -/
structure PreferenceSet where
  scale : ℚ
  format : String
  fillFormat : String
  strokeFormat : String
deriving DecidableEq

/-- Modelled from the spec: the documented defaults scale=2, format=PNG,
fillFormat=hex, strokeFormat=hex. -/
def defaultPreferences : PreferenceSet :=
  { scale := 2, format := "PNG", fillFormat := "hex", strokeFormat := "hex" }

/-- Modelled from the spec: host persistent storage as the bridge sees it —
either four independent, individually missing keys, or a read failure. -/
inductive StorageState
  | ok (scale : Option ℚ) (format : Option String)
      (fillFormat : Option String) (strokeFormat : Option String)
  | readFailure
deriving DecidableEq

/-- Modelled from the spec: `load()` of the Session/Preferences Bridge —
each missing key falls back to its documented default, and a storage read
failure is caught and replaced by the full default set; the function is
total, so it never raises. -/
def loadPreferences : StorageState → PreferenceSet
  | StorageState.readFailure => defaultPreferences
  | StorageState.ok s f ff sf =>
      { scale := s.getD defaultPreferences.scale,
        format := f.getD defaultPreferences.format,
        fillFormat := ff.getD defaultPreferences.fillFormat,
        strokeFormat := sf.getD defaultPreferences.strokeFormat }

/-- A single hex digit decoded back to its value, both cases accepted. -/
def hexDigitValue (c : Char) : Option Nat :=
  if '0' ≤ c ∧ c ≤ '9' then some (c.toNat - 48)
  else if 'a' ≤ c ∧ c ≤ 'f' then some (c.toNat - 87)
  else if 'A' ≤ c ∧ c ≤ 'F' then some (c.toNat - 55)
  else none

/-- Two hex digits decoded to a byte value. -/
def hexPairValue (c1 c2 : Char) : Option Nat :=
  match hexDigitValue c1, hexDigitValue c2 with
  | some h, some l => some (16 * h + l)
  | _, _ => none

/-- Modelled from the spec: decoding a `#RRGGBB` string back into [0,1]
channels, the inverse direction of the round-trip property (the source has
no decoder; the spec's round-trip sentence defines it). -/
def hexToRgb (s : String) : Option (ℚ × ℚ × ℚ) :=
  match s.data with
  | ['#', r1, r2, g1, g2, b1, b2] =>
    match hexPairValue r1 r2, hexPairValue g1 g2, hexPairValue b1 b2 with
    | some r, some g, some b => some ((r : ℚ) / 255, (g : ℚ) / 255, (b : ℚ) / 255)
    | _, _, _ => none
  | _ => none

/-- A concrete exportable frame node used to exercise the orchestrators. -/
def frameNode : SceneNode := ⟨"Frame A", "FRAME", none, none, none⟩

/-- A second concrete exportable frame node. -/
def frameNodeB : SceneNode := ⟨"Frame B", "FRAME", none, none, none⟩

/-- A concrete node whose kind is not on the exportable allow-list. -/
def sliceNode : SceneNode := ⟨"Slice", "SLICE", none, none, none⟩

/-- A host export stub that always succeeds with a one-byte payload. -/
def alwaysBytes : ExportFn := fun _ _ => some [0]

/-- A host export stub that raises exactly on the node named Frame B. -/
def failOnFrameB : ExportFn := fun n _ => if n.name == "Frame B" then none else some [0]

/-- A concrete node whose single solid fill and single solid stroke both have
their visibility flag explicitly false. -/
def hiddenPaintNode : SceneNode :=
  ⟨"Hidden", "RECTANGLE",
    some [⟨"SOLID", some ⟨1, 0, 0⟩, some false⟩],
    some [⟨"SOLID", some ⟨0, 0, 1⟩, some false⟩], none⟩

/-- A concrete node with two solid fills. -/
def twoFillNode : SceneNode :=
  ⟨"Two", "RECTANGLE",
    some [⟨"SOLID", some ⟨1, 0, 0⟩, none⟩, ⟨"SOLID", some ⟨0, 1, 0⟩, none⟩],
    none, none⟩

/-- A concrete node with exactly one solid fill (next to a gradient) and one
solid stroke. -/
def oneFillNode : SceneNode :=
  ⟨"One", "RECTANGLE",
    some [⟨"SOLID", some ⟨0, 1, 0⟩, none⟩, ⟨"GRADIENT_LINEAR", none, none⟩],
    some [⟨"SOLID", some ⟨0, 0, 1⟩, none⟩], none⟩

/-- The padded lowercase hex pair for a byte value, the Nat-level core of
`toHexByte`. -/
def hexPairStr (k : ℕ) : String :=
  let hex := intToHexString (k : ℤ)
  if hex.length == 1 then "0" ++ hex else hex

/-- The upper-cased character pair a channel contributes to a hex color
string. -/
def upperPair (k : ℕ) : List Char := (hexPairStr k).data.map Char.toUpper

/-- Decoding of a two-character hex pair presented as a char list. -/
def parsePair : List Char → Option Nat
  | [c1, c2] => hexPairValue c1 c2
  | _ => none

/-- Nodes of an orchestrator trace that received a host export call, in call
order. -/
def exportedNodes (events : List Event) : List SceneNode :=
  events.filterMap fun e => match e with
    | Event.exportCall n _ => some n
    | _ => none

/-- The `file-ready` messages of a trace, in emission order. -/
def fileReadyMsgs (events : List Event) : List UIMessage :=
  events.filterMap fun e => match e with
    | Event.post (UIMessage.fileReady f b fm) => some (UIMessage.fileReady f b fm)
    | _ => none

/-- The `zip-file-ready` messages of a trace, in emission order. -/
def zipFileMsgs (events : List Event) : List UIMessage :=
  events.filterMap fun e => match e with
    | Event.post (UIMessage.zipFileReady f b fm) => some (UIMessage.zipFileReady f b fm)
    | _ => none

/-- The `zip-batch-start` messages of a trace. -/
def zipStartMsgs (events : List Event) : List UIMessage :=
  events.filterMap fun e => match e with
    | Event.post (UIMessage.zipBatchStart n z) => some (UIMessage.zipBatchStart n z)
    | _ => none

/-- The `zip-batch-complete` messages of a trace. -/
def zipCompleteMsgs (events : List Event) : List UIMessage :=
  events.filterMap fun e => match e with
    | Event.post (UIMessage.zipBatchComplete s n) => some (UIMessage.zipBatchComplete s n)
    | _ => none

/-- The user-facing notices of a trace, in emission order. -/
def notices (events : List Event) : List String :=
  events.filterMap fun e => match e with
    | Event.notify m => some m
    | _ => none

lemma exportLoop_successCount (exportFn : ExportFn) (scale : ℚ) (format : String)
    (nodes : List SceneNode) :
    (exportLoop exportFn scale format nodes).successCount
      = (nodes.filter fun n => canExportNode n
          && (exportFn n (mkExportSettings format scale)).isSome).length := by
  induction nodes with
  | nil => simp [exportLoop]
  | cons node rest ih =>
    by_cases hc : canExportNode node
    · cases hfn : exportFn node (mkExportSettings format scale) with
      | some bytes => simp [exportLoop, hc, hfn, ih]
      | none => simp [exportLoop, hc, hfn, ih]
    · simp [exportLoop, hc, ih]

lemma exportLoop_errorNodes (exportFn : ExportFn) (scale : ℚ) (format : String)
    (nodes : List SceneNode) :
    (exportLoop exportFn scale format nodes).errorNodes
      = (nodes.filter fun n => !canExportNode n
          || (exportFn n (mkExportSettings format scale)).isNone).map errorEntry := by
  induction nodes with
  | nil => simp [exportLoop]
  | cons node rest ih =>
    by_cases hc : canExportNode node
    · cases hfn : exportFn node (mkExportSettings format scale) with
      | some bytes => simp [exportLoop, hc, hfn, ih]
      | none => simp [exportLoop, hc, hfn, ih]
    · simp [exportLoop, hc, ih]

lemma exportLoop_exportedNodes (exportFn : ExportFn) (scale : ℚ) (format : String)
    (nodes : List SceneNode) :
    exportedNodes (exportLoop exportFn scale format nodes).events
      = nodes.filter canExportNode := by
  induction nodes with
  | nil => simp [exportLoop, exportedNodes]
  | cons node rest ih =>
    by_cases hc : canExportNode node
    · cases hfn : exportFn node (mkExportSettings format scale) with
      | some bytes =>
        simp only [exportLoop, hc, hfn, if_true]
        simp only [exportedNodes, List.filterMap_cons] at ih ⊢
        simp [ih, List.filter_cons, hc]
      | none =>
        simp only [exportLoop, hc, hfn, if_true]
        simp only [exportedNodes, List.filterMap_cons] at ih ⊢
        simp [ih, List.filter_cons, hc]
    · simp only [exportLoop, hc, if_false, Bool.false_eq_true]
      simp only [exportedNodes] at ih ⊢
      simp [ih, List.filter_cons, hc]

lemma exportLoop_fileReadyMsgs (exportFn : ExportFn) (scale : ℚ) (format : String)
    (nodes : List SceneNode) :
    fileReadyMsgs (exportLoop exportFn scale format nodes).events
      = (nodes.filter fun n => canExportNode n
          && (exportFn n (mkExportSettings format scale)).isSome).map
          (fun n => UIMessage.fileReady (mkFilename n scale format)
            ((exportFn n (mkExportSettings format scale)).getD []) format) := by
  induction nodes with
  | nil => simp [exportLoop, fileReadyMsgs]
  | cons node rest ih =>
    by_cases hc : canExportNode node
    · cases hfn : exportFn node (mkExportSettings format scale) with
      | some bytes =>
        simp only [exportLoop, hc, hfn, if_true]
        simp only [fileReadyMsgs, List.filterMap_cons] at ih ⊢
        simp [ih, List.filter_cons, hc, hfn]
      | none =>
        simp only [exportLoop, hc, hfn, if_true]
        simp only [fileReadyMsgs, List.filterMap_cons] at ih ⊢
        simp [ih, List.filter_cons, hc, hfn]
    · simp only [exportLoop, hc, if_false, Bool.false_eq_true]
      simp only [fileReadyMsgs] at ih ⊢
      simp [ih, List.filter_cons, hc]

lemma exportLoop_notices (exportFn : ExportFn) (scale : ℚ) (format : String)
    (nodes : List SceneNode) :
    notices (exportLoop exportFn scale format nodes).events = [] := by
  induction nodes with
  | nil => simp [exportLoop, notices]
  | cons node rest ih =>
    by_cases hc : canExportNode node
    · cases hfn : exportFn node (mkExportSettings format scale) with
      | some bytes =>
        simp only [exportLoop, hc, hfn, if_true]
        simp only [notices, List.filterMap_cons] at ih ⊢
        simp [ih]
      | none =>
        simp only [exportLoop, hc, hfn, if_true]
        simp only [notices, List.filterMap_cons] at ih ⊢
        simp [ih]
    · simp only [exportLoop, hc, if_false, Bool.false_eq_true]
      simp only [notices] at ih ⊢
      simp [ih]

lemma exportLoop_zipStartMsgs (exportFn : ExportFn) (scale : ℚ) (format : String)
    (nodes : List SceneNode) :
    zipStartMsgs (exportLoop exportFn scale format nodes).events = [] := by
  induction nodes with
  | nil => simp [exportLoop, zipStartMsgs]
  | cons node rest ih =>
    by_cases hc : canExportNode node
    · cases hfn : exportFn node (mkExportSettings format scale) with
      | some bytes =>
        simp only [exportLoop, hc, hfn, if_true]
        simp only [zipStartMsgs, List.filterMap_cons] at ih ⊢
        simp [ih]
      | none =>
        simp only [exportLoop, hc, hfn, if_true]
        simp only [zipStartMsgs, List.filterMap_cons] at ih ⊢
        simp [ih]
    · simp only [exportLoop, hc, if_false, Bool.false_eq_true]
      simp only [zipStartMsgs] at ih ⊢
      simp [ih]

lemma exportLoop_zipCompleteMsgs (exportFn : ExportFn) (scale : ℚ) (format : String)
    (nodes : List SceneNode) :
    zipCompleteMsgs (exportLoop exportFn scale format nodes).events = [] := by
  induction nodes with
  | nil => simp [exportLoop, zipCompleteMsgs]
  | cons node rest ih =>
    by_cases hc : canExportNode node
    · cases hfn : exportFn node (mkExportSettings format scale) with
      | some bytes =>
        simp only [exportLoop, hc, hfn, if_true]
        simp only [zipCompleteMsgs, List.filterMap_cons] at ih ⊢
        simp [ih]
      | none =>
        simp only [exportLoop, hc, hfn, if_true]
        simp only [zipCompleteMsgs, List.filterMap_cons] at ih ⊢
        simp [ih]
    · simp only [exportLoop, hc, if_false, Bool.false_eq_true]
      simp only [zipCompleteMsgs] at ih ⊢
      simp [ih]

lemma exportLoop_tally (exportFn : ExportFn) (scale : ℚ) (format : String)
    (nodes : List SceneNode) :
    (exportLoop exportFn scale format nodes).successCount
      + (exportLoop exportFn scale format nodes).errorNodes.length = nodes.length := by
  induction nodes with
  | nil => simp [exportLoop]
  | cons node rest ih =>
    by_cases hc : canExportNode node
    · cases hfn : exportFn node (mkExportSettings format scale) with
      | some bytes => simp [exportLoop, hc, hfn]; omega
      | none => simp [exportLoop, hc, hfn]; omega
    · simp [exportLoop, hc]; omega

lemma zipLoop_successCount (exportFn : ExportFn) (scale : ℚ) (format : String)
    (nodes : List SceneNode) :
    (zipLoop exportFn scale format nodes).successCount
      = (nodes.filter fun n => (exportFn n (mkExportSettings format scale)).isSome).length := by
  induction nodes with
  | nil => simp [zipLoop]
  | cons node rest ih =>
    cases hfn : exportFn node (mkExportSettings format scale) with
    | some bytes => simp [zipLoop, hfn, ih]
    | none => simp [zipLoop, hfn, ih]

lemma zipLoop_errorNodes (exportFn : ExportFn) (scale : ℚ) (format : String)
    (nodes : List SceneNode) :
    (zipLoop exportFn scale format nodes).errorNodes
      = (nodes.filter fun n => (exportFn n (mkExportSettings format scale)).isNone).map errorEntry := by
  induction nodes with
  | nil => simp [zipLoop]
  | cons node rest ih =>
    cases hfn : exportFn node (mkExportSettings format scale) with
    | some bytes => simp [zipLoop, hfn, ih]
    | none => simp [zipLoop, hfn, ih]

lemma zipLoop_exportedNodes (exportFn : ExportFn) (scale : ℚ) (format : String)
    (nodes : List SceneNode) :
    exportedNodes (zipLoop exportFn scale format nodes).events = nodes := by
  induction nodes with
  | nil => simp [zipLoop, exportedNodes]
  | cons node rest ih =>
    cases hfn : exportFn node (mkExportSettings format scale) with
    | some bytes =>
      simp only [zipLoop, hfn]
      simp only [exportedNodes, List.filterMap_cons] at ih ⊢
      simp [ih]
    | none =>
      simp only [zipLoop, hfn]
      simp only [exportedNodes, List.filterMap_cons] at ih ⊢
      simp [ih]

lemma zipLoop_zipFileMsgs (exportFn : ExportFn) (scale : ℚ) (format : String)
    (nodes : List SceneNode) :
    zipFileMsgs (zipLoop exportFn scale format nodes).events
      = (nodes.filter fun n => (exportFn n (mkExportSettings format scale)).isSome).map
          (fun n => UIMessage.zipFileReady (mkFilename n scale format)
            ((exportFn n (mkExportSettings format scale)).getD []) format) := by
  induction nodes with
  | nil => simp [zipLoop, zipFileMsgs]
  | cons node rest ih =>
    cases hfn : exportFn node (mkExportSettings format scale) with
    | some bytes =>
      simp only [zipLoop, hfn]
      simp only [zipFileMsgs, List.filterMap_cons] at ih ⊢
      simp [ih, List.filter_cons, hfn]
    | none =>
      simp only [zipLoop, hfn]
      simp only [zipFileMsgs, List.filterMap_cons] at ih ⊢
      simp [ih, List.filter_cons, hfn]

lemma zipLoop_notices (exportFn : ExportFn) (scale : ℚ) (format : String)
    (nodes : List SceneNode) :
    notices (zipLoop exportFn scale format nodes).events = [] := by
  induction nodes with
  | nil => simp [zipLoop, notices]
  | cons node rest ih =>
    cases hfn : exportFn node (mkExportSettings format scale) with
    | some bytes =>
      simp only [zipLoop, hfn]
      simp only [notices, List.filterMap_cons] at ih ⊢
      simp [ih]
    | none =>
      simp only [zipLoop, hfn]
      simp only [notices, List.filterMap_cons] at ih ⊢
      simp [ih]

lemma zipLoop_zipStartMsgs (exportFn : ExportFn) (scale : ℚ) (format : String)
    (nodes : List SceneNode) :
    zipStartMsgs (zipLoop exportFn scale format nodes).events = [] := by
  induction nodes with
  | nil => simp [zipLoop, zipStartMsgs]
  | cons node rest ih =>
    cases hfn : exportFn node (mkExportSettings format scale) with
    | some bytes =>
      simp only [zipLoop, hfn]
      simp only [zipStartMsgs, List.filterMap_cons] at ih ⊢
      simp [ih]
    | none =>
      simp only [zipLoop, hfn]
      simp only [zipStartMsgs, List.filterMap_cons] at ih ⊢
      simp [ih]

lemma zipLoop_zipCompleteMsgs (exportFn : ExportFn) (scale : ℚ) (format : String)
    (nodes : List SceneNode) :
    zipCompleteMsgs (zipLoop exportFn scale format nodes).events = [] := by
  induction nodes with
  | nil => simp [zipLoop, zipCompleteMsgs]
  | cons node rest ih =>
    cases hfn : exportFn node (mkExportSettings format scale) with
    | some bytes =>
      simp only [zipLoop, hfn]
      simp only [zipCompleteMsgs, List.filterMap_cons] at ih ⊢
      simp [ih]
    | none =>
      simp only [zipLoop, hfn]
      simp only [zipCompleteMsgs, List.filterMap_cons] at ih ⊢
      simp [ih]

lemma zipLoop_tally (exportFn : ExportFn) (scale : ℚ) (format : String)
    (nodes : List SceneNode) :
    (zipLoop exportFn scale format nodes).successCount
      + (zipLoop exportFn scale format nodes).errorNodes.length = nodes.length := by
  induction nodes with
  | nil => simp [zipLoop]
  | cons node rest ih =>
    cases hfn : exportFn node (mkExportSettings format scale) with
    | some bytes => simp [zipLoop, hfn]; omega
    | none => simp [zipLoop, hfn]; omega

lemma exportedNodes_append (a b : List Event) :
    exportedNodes (a ++ b) = exportedNodes a ++ exportedNodes b :=
  List.filterMap_append a b _

lemma fileReadyMsgs_append (a b : List Event) :
    fileReadyMsgs (a ++ b) = fileReadyMsgs a ++ fileReadyMsgs b :=
  List.filterMap_append a b _

lemma zipFileMsgs_append (a b : List Event) :
    zipFileMsgs (a ++ b) = zipFileMsgs a ++ zipFileMsgs b :=
  List.filterMap_append a b _

lemma zipStartMsgs_append (a b : List Event) :
    zipStartMsgs (a ++ b) = zipStartMsgs a ++ zipStartMsgs b :=
  List.filterMap_append a b _

lemma zipCompleteMsgs_append (a b : List Event) :
    zipCompleteMsgs (a ++ b) = zipCompleteMsgs a ++ zipCompleteMsgs b :=
  List.filterMap_append a b _

lemma notices_append (a b : List Event) :
    notices (a ++ b) = notices a ++ notices b :=
  List.filterMap_append a b _

lemma exportedNodes_ite (c : Prop) [Decidable c] (m : String) :
    exportedNodes (if c then [Event.notify m] else []) = [] := by
  split <;> rfl

lemma fileReadyMsgs_ite (c : Prop) [Decidable c] (m : String) :
    fileReadyMsgs (if c then [Event.notify m] else []) = [] := by
  split <;> rfl

lemma zipFileMsgs_ite (c : Prop) [Decidable c] (m : String) :
    zipFileMsgs (if c then [Event.notify m] else []) = [] := by
  split <;> rfl

lemma zipStartMsgs_ite (c : Prop) [Decidable c] (m : String) :
    zipStartMsgs (if c then [Event.notify m] else []) = [] := by
  split <;> rfl

lemma zipCompleteMsgs_ite (c : Prop) [Decidable c] (m : String) :
    zipCompleteMsgs (if c then [Event.notify m] else []) = [] := by
  split <;> rfl

lemma length_cons_ne_zero (a : SceneNode) (l : List SceneNode) :
    (((a :: l).length) == 0) = false := by simp

lemma exportSelection_successCount (exportFn : ExportFn) (scale : ℚ) (format : String)
    (selection : List SceneNode) :
    (exportSelection exportFn selection scale format).successCount
      = (selection.filter fun n => canExportNode n
          && (exportFn n (mkExportSettings format scale)).isSome).length := by
  cases selection with
  | nil => simp [exportSelection, exportLoop]
  | cons a l =>
    simp only [exportSelection, length_cons_ne_zero, Bool.false_eq_true, if_false]
    exact exportLoop_successCount exportFn scale format (a :: l)

lemma exportSelection_errorNodes (exportFn : ExportFn) (scale : ℚ) (format : String)
    (selection : List SceneNode) :
    (exportSelection exportFn selection scale format).errorNodes
      = (selection.filter fun n => !canExportNode n
          || (exportFn n (mkExportSettings format scale)).isNone).map errorEntry := by
  cases selection with
  | nil => simp [exportSelection, exportLoop]
  | cons a l =>
    simp only [exportSelection, length_cons_ne_zero, Bool.false_eq_true, if_false]
    exact exportLoop_errorNodes exportFn scale format (a :: l)

lemma exportSelection_exportedNodes (exportFn : ExportFn) (scale : ℚ) (format : String)
    (selection : List SceneNode) :
    exportedNodes (exportSelection exportFn selection scale format).events
      = selection.filter canExportNode := by
  cases selection with
  | nil => simp [exportSelection, exportedNodes]
  | cons a l =>
    simp only [exportSelection, length_cons_ne_zero, Bool.false_eq_true, if_false,
      exportedNodes_append, exportedNodes_ite, List.append_nil,
      exportLoop_exportedNodes]

lemma exportSelection_fileReadyMsgs (exportFn : ExportFn) (scale : ℚ) (format : String)
    (selection : List SceneNode) :
    fileReadyMsgs (exportSelection exportFn selection scale format).events
      = (selection.filter fun n => canExportNode n
          && (exportFn n (mkExportSettings format scale)).isSome).map
          (fun n => UIMessage.fileReady (mkFilename n scale format)
            ((exportFn n (mkExportSettings format scale)).getD []) format) := by
  cases selection with
  | nil => simp [exportSelection, fileReadyMsgs]
  | cons a l =>
    simp only [exportSelection, length_cons_ne_zero, Bool.false_eq_true, if_false,
      fileReadyMsgs_append, fileReadyMsgs_ite, List.append_nil,
      exportLoop_fileReadyMsgs]

lemma exportSelection_tally (exportFn : ExportFn) (scale : ℚ) (format : String)
    (selection : List SceneNode) :
    (exportSelection exportFn selection scale format).successCount
      + (exportSelection exportFn selection scale format).errorNodes.length
      = selection.length := by
  cases selection with
  | nil => simp [exportSelection]
  | cons a l =>
    simp only [exportSelection, length_cons_ne_zero, Bool.false_eq_true, if_false]
    exact exportLoop_tally exportFn scale format (a :: l)

lemma batchExportForZip_of_ge2 (exportFn : ExportFn) (scale : ℚ) (format : String)
    (selection : List SceneNode) (h2 : 2 ≤ selection.length)
    (hx : (selection.filter canExportNode).length ≠ 0) :
    batchExportForZip exportFn selection scale format =
      ⟨Event.post (UIMessage.zipBatchStart (selection.filter canExportNode).length
           ("figma-export-" ++ toString (selection.filter canExportNode).length ++ "-items.zip")) ::
         (zipLoop exportFn scale format (selection.filter canExportNode)).events ++
         [Event.post (UIMessage.zipBatchComplete
            (zipLoop exportFn scale format (selection.filter canExportNode)).successCount
            (zipLoop exportFn scale format (selection.filter canExportNode)).errorNodes.length)] ++
         (if (zipLoop exportFn scale format (selection.filter canExportNode)).successCount > 0 then
            [Event.notify ("Prepared "
              ++ toString (zipLoop exportFn scale format (selection.filter canExportNode)).successCount
              ++ " files for zip download!")]
          else []),
       (zipLoop exportFn scale format (selection.filter canExportNode)).successCount,
       (zipLoop exportFn scale format (selection.filter canExportNode)).errorNodes⟩ := by
  have h0 : (selection.length == 0) = false := by
    simp only [beq_eq_false_iff_ne, ne_eq]; omega
  have h1 : (selection.length == 1) = false := by
    simp only [beq_eq_false_iff_ne, ne_eq]; omega
  have hx' : ((selection.filter canExportNode).length == 0) = false := by
    simp only [beq_eq_false_iff_ne, ne_eq]; exact hx
  simp only [batchExportForZip, h0, h1, hx', Bool.false_eq_true, if_false]

lemma exportedNodes_cons_post (m : UIMessage) (l : List Event) :
    exportedNodes (Event.post m :: l) = exportedNodes l := rfl

lemma zipStartMsgs_cons_start (n : Nat) (z : String) (l : List Event) :
    zipStartMsgs (Event.post (UIMessage.zipBatchStart n z) :: l)
      = UIMessage.zipBatchStart n z :: zipStartMsgs l := rfl

lemma zipCompleteMsgs_cons_start (n : Nat) (z : String) (l : List Event) :
    zipCompleteMsgs (Event.post (UIMessage.zipBatchStart n z) :: l)
      = zipCompleteMsgs l := rfl

lemma zipFileMsgs_cons_start (n : Nat) (z : String) (l : List Event) :
    zipFileMsgs (Event.post (UIMessage.zipBatchStart n z) :: l) = zipFileMsgs l := rfl

lemma zipStartMsgs_complete_singleton (s n : Nat) :
    zipStartMsgs [Event.post (UIMessage.zipBatchComplete s n)] = [] := rfl

lemma zipCompleteMsgs_complete_singleton (s n : Nat) :
    zipCompleteMsgs [Event.post (UIMessage.zipBatchComplete s n)]
      = [UIMessage.zipBatchComplete s n] := rfl

lemma zipFileMsgs_complete_singleton (s n : Nat) :
    zipFileMsgs [Event.post (UIMessage.zipBatchComplete s n)] = [] := rfl

lemma exportedNodes_complete_singleton (s n : Nat) :
    exportedNodes [Event.post (UIMessage.zipBatchComplete s n)] = [] := rfl

lemma batchExportForZip_errorNodes (exportFn : ExportFn) (scale : ℚ) (format : String)
    (selection : List SceneNode) (h2 : 2 ≤ selection.length)
    (hx : (selection.filter canExportNode).length ≠ 0) :
    (batchExportForZip exportFn selection scale format).errorNodes
      = ((selection.filter canExportNode).filter fun n =>
          (exportFn n (mkExportSettings format scale)).isNone).map errorEntry := by
  rw [batchExportForZip_of_ge2 exportFn scale format selection h2 hx]
  exact zipLoop_errorNodes exportFn scale format _

lemma batchExportForZip_successCount (exportFn : ExportFn) (scale : ℚ) (format : String)
    (selection : List SceneNode) (h2 : 2 ≤ selection.length)
    (hx : (selection.filter canExportNode).length ≠ 0) :
    (batchExportForZip exportFn selection scale format).successCount
      = ((selection.filter canExportNode).filter fun n =>
          (exportFn n (mkExportSettings format scale)).isSome).length := by
  rw [batchExportForZip_of_ge2 exportFn scale format selection h2 hx]
  exact zipLoop_successCount exportFn scale format _

lemma batchExportForZip_tally (exportFn : ExportFn) (scale : ℚ) (format : String)
    (selection : List SceneNode) (h2 : 2 ≤ selection.length)
    (hx : (selection.filter canExportNode).length ≠ 0) :
    (batchExportForZip exportFn selection scale format).successCount
      + (batchExportForZip exportFn selection scale format).errorNodes.length
      = (selection.filter canExportNode).length := by
  rw [batchExportForZip_of_ge2 exportFn scale format selection h2 hx]
  exact zipLoop_tally exportFn scale format _

lemma batchExportForZip_exportedNodes (exportFn : ExportFn) (scale : ℚ) (format : String)
    (selection : List SceneNode) (h2 : 2 ≤ selection.length)
    (hx : (selection.filter canExportNode).length ≠ 0) :
    exportedNodes (batchExportForZip exportFn selection scale format).events
      = selection.filter canExportNode := by
  rw [batchExportForZip_of_ge2 exportFn scale format selection h2 hx]
  have hz := zipLoop_exportedNodes exportFn scale format (selection.filter canExportNode)
  simp only [exportedNodes, List.filterMap_cons, List.filterMap_append] at hz ⊢
  split <;> simp [hz]

lemma batchExportForZip_zipStartMsgs (exportFn : ExportFn) (scale : ℚ) (format : String)
    (selection : List SceneNode) (h2 : 2 ≤ selection.length)
    (hx : (selection.filter canExportNode).length ≠ 0) :
    zipStartMsgs (batchExportForZip exportFn selection scale format).events
      = [UIMessage.zipBatchStart (selection.filter canExportNode).length
          ("figma-export-" ++ toString (selection.filter canExportNode).length ++ "-items.zip")] := by
  rw [batchExportForZip_of_ge2 exportFn scale format selection h2 hx]
  have hz := zipLoop_zipStartMsgs exportFn scale format (selection.filter canExportNode)
  simp only [zipStartMsgs, List.filterMap_cons, List.filterMap_append] at hz ⊢
  split <;> simp [hz]

lemma batchExportForZip_zipCompleteMsgs (exportFn : ExportFn) (scale : ℚ) (format : String)
    (selection : List SceneNode) (h2 : 2 ≤ selection.length)
    (hx : (selection.filter canExportNode).length ≠ 0) :
    zipCompleteMsgs (batchExportForZip exportFn selection scale format).events
      = [UIMessage.zipBatchComplete
          (batchExportForZip exportFn selection scale format).successCount
          (batchExportForZip exportFn selection scale format).errorNodes.length] := by
  rw [batchExportForZip_of_ge2 exportFn scale format selection h2 hx]
  have hz := zipLoop_zipCompleteMsgs exportFn scale format (selection.filter canExportNode)
  simp only [zipCompleteMsgs, List.filterMap_cons, List.filterMap_append] at hz ⊢
  split <;> simp [hz]

lemma batchExportForZip_zipFileMsgs (exportFn : ExportFn) (scale : ℚ) (format : String)
    (selection : List SceneNode) (h2 : 2 ≤ selection.length)
    (hx : (selection.filter canExportNode).length ≠ 0) :
    zipFileMsgs (batchExportForZip exportFn selection scale format).events
      = ((selection.filter canExportNode).filter fun n =>
          (exportFn n (mkExportSettings format scale)).isSome).map
          (fun n => UIMessage.zipFileReady (mkFilename n scale format)
            ((exportFn n (mkExportSettings format scale)).getD []) format) := by
  rw [batchExportForZip_of_ge2 exportFn scale format selection h2 hx]
  have hz := zipLoop_zipFileMsgs exportFn scale format (selection.filter canExportNode)
  simp only [zipFileMsgs, List.filterMap_cons, List.filterMap_append] at hz ⊢
  split <;> simp [hz]

/-- C1: during a single-mode or zip-batch export run, a per-element failure of
the host export call only adds that element's name and kind to the failure
list; every exportable element still receives its own export call, in order,
and the run ends with a complete success/failure tally — for every input list
and every pattern of per-element failures. -/
theorem c1_per_element_failure_isolation :
    (∀ (exportFn : ExportFn) (scale : ℚ) (format : String) (selection : List SceneNode),
      (exportSelection exportFn selection scale format).errorNodes
        = (selection.filter fun n => !canExportNode n
            || (exportFn n (mkExportSettings format scale)).isNone).map errorEntry
      ∧ exportedNodes (exportSelection exportFn selection scale format).events
        = selection.filter canExportNode
      ∧ (exportSelection exportFn selection scale format).successCount
          + (exportSelection exportFn selection scale format).errorNodes.length
        = selection.length)
    ∧ (∀ (exportFn : ExportFn) (scale : ℚ) (format : String) (selection : List SceneNode),
      2 ≤ selection.length → (selection.filter canExportNode).length ≠ 0 →
      (batchExportForZip exportFn selection scale format).errorNodes
        = ((selection.filter canExportNode).filter fun n =>
            (exportFn n (mkExportSettings format scale)).isNone).map errorEntry
      ∧ exportedNodes (batchExportForZip exportFn selection scale format).events
        = selection.filter canExportNode
      ∧ (batchExportForZip exportFn selection scale format).successCount
          + (batchExportForZip exportFn selection scale format).errorNodes.length
        = (selection.filter canExportNode).length) := by
  constructor
  · intro exportFn scale format selection
    exact ⟨exportSelection_errorNodes exportFn scale format selection,
      exportSelection_exportedNodes exportFn scale format selection,
      exportSelection_tally exportFn scale format selection⟩
  · intro exportFn scale format selection h2 hx
    exact ⟨batchExportForZip_errorNodes exportFn scale format selection h2 hx,
      batchExportForZip_exportedNodes exportFn scale format selection h2 hx,
      batchExportForZip_tally exportFn scale format selection h2 hx⟩

/-- C1 witness: a concrete two-frame zip batch whose host call raises on the
second frame still attempts both frames, records exactly the failing frame,
and tallies to the exportable count. -/
theorem c1_witness :
    (batchExportForZip failOnFrameB [frameNode, frameNodeB] 2 "PNG").errorNodes
      = [errorEntry frameNodeB]
    ∧ exportedNodes (batchExportForZip failOnFrameB [frameNode, frameNodeB] 2 "PNG").events
      = [frameNode, frameNodeB]
    ∧ (batchExportForZip failOnFrameB [frameNode, frameNodeB] 2 "PNG").successCount
        + (batchExportForZip failOnFrameB [frameNode, frameNodeB] 2 "PNG").errorNodes.length
      = 2 := by
  obtain ⟨h1, h2, h3⟩ := c1_per_element_failure_isolation.2 failOnFrameB 2 "PNG"
    [frameNode, frameNodeB] (by decide) (by decide)
  refine ⟨?_, ?_, ?_⟩
  · rw [h1]; decide
  · rw [h2]; decide
  · rw [h3]; decide

/-- C6: invoking either export mode on an empty selection performs no host
export call, emits exactly one user notice, and posts no batch-start or
batch-complete message. -/
theorem c6_empty_selection_guard :
    ∀ (exportFn : ExportFn) (scale : ℚ) (format : String),
      exportSelection exportFn [] scale format
        = ⟨[Event.notify "Please select a layer to export"], 0, []⟩
      ∧ batchExportForZip exportFn [] scale format
        = ⟨[Event.notify "Please select layers to export as zip"], 0, []⟩
      ∧ exportedNodes (exportSelection exportFn [] scale format).events = []
      ∧ notices (exportSelection exportFn [] scale format).events
        = ["Please select a layer to export"]
      ∧ zipStartMsgs (exportSelection exportFn [] scale format).events = []
      ∧ zipCompleteMsgs (exportSelection exportFn [] scale format).events = []
      ∧ exportedNodes (batchExportForZip exportFn [] scale format).events = []
      ∧ notices (batchExportForZip exportFn [] scale format).events
        = ["Please select layers to export as zip"]
      ∧ zipStartMsgs (batchExportForZip exportFn [] scale format).events = []
      ∧ zipCompleteMsgs (batchExportForZip exportFn [] scale format).events = [] :=
  fun _ _ _ => ⟨rfl, rfl, rfl, rfl, rfl, rfl, rfl, rfl, rfl, rfl⟩

/-- C3 counterexample: a two-element selection with exactly one exportable
candidate is not rejected with the select-multiple-layers notice — the batch
proceeds, attempts the one exportable node, and reports a prepared file. -/
theorem c3_counterexample :
    ([sliceNode, frameNode].filter canExportNode).length = 1
    ∧ exportedNodes (batchExportForZip alwaysBytes [sliceNode, frameNode] 2 "PNG").events
      = [frameNode]
    ∧ notices (batchExportForZip alwaysBytes [sliceNode, frameNode] 2 "PNG").events
      = ["Prepared 1 files for zip download!"] := by
  refine ⟨by decide, by decide, by decide⟩

/-- C3 amended: the select-multiple-layers rejection is keyed on the raw
selection size, not on the exportable-candidate count: a one-element
selection is rejected with that notice and nothing is exported. -/
theorem c3_single_selection_rejected :
    ∀ (exportFn : ExportFn) (scale : ℚ) (format : String) (node : SceneNode),
      batchExportForZip exportFn [node] scale format
        = ⟨[Event.notify "Select multiple layers to create a zip file"], 0, []⟩
      ∧ exportedNodes (batchExportForZip exportFn [node] scale format).events = []
      ∧ zipStartMsgs (batchExportForZip exportFn [node] scale format).events = [] :=
  fun _ _ _ _ => ⟨rfl, rfl, rfl⟩

/-- C10: in zip-batch mode, the tallies carried by zip-batch-complete always
add up to the expectedFiles count announced by the preceding zip-batch-start
message, for every input list and failure pattern. -/
theorem c10_zip_batch_accounting :
    ∀ (exportFn : ExportFn) (scale : ℚ) (format : String) (selection : List SceneNode),
      2 ≤ selection.length → (selection.filter canExportNode).length ≠ 0 →
      zipStartMsgs (batchExportForZip exportFn selection scale format).events
        = [UIMessage.zipBatchStart (selection.filter canExportNode).length
            ("figma-export-" ++ toString (selection.filter canExportNode).length ++ "-items.zip")]
      ∧ zipCompleteMsgs (batchExportForZip exportFn selection scale format).events
        = [UIMessage.zipBatchComplete
            (batchExportForZip exportFn selection scale format).successCount
            (batchExportForZip exportFn selection scale format).errorNodes.length]
      ∧ (batchExportForZip exportFn selection scale format).successCount
          + (batchExportForZip exportFn selection scale format).errorNodes.length
        = (selection.filter canExportNode).length := by
  intro exportFn scale format selection h2 hx
  exact ⟨batchExportForZip_zipStartMsgs exportFn scale format selection h2 hx,
    batchExportForZip_zipCompleteMsgs exportFn scale format selection h2 hx,
    batchExportForZip_tally exportFn scale format selection h2 hx⟩

/-- C10 witness: the two-frame batch with one failing export announces two
expected files and completes with tallies adding to two. -/
theorem c10_witness :
    zipStartMsgs (batchExportForZip failOnFrameB [frameNode, frameNodeB] 2 "PNG").events
      = [UIMessage.zipBatchStart 2 "figma-export-2-items.zip"]
    ∧ zipCompleteMsgs (batchExportForZip failOnFrameB [frameNode, frameNodeB] 2 "PNG").events
      = [UIMessage.zipBatchComplete
          (batchExportForZip failOnFrameB [frameNode, frameNodeB] 2 "PNG").successCount
          (batchExportForZip failOnFrameB [frameNode, frameNodeB] 2 "PNG").errorNodes.length]
    ∧ (batchExportForZip failOnFrameB [frameNode, frameNodeB] 2 "PNG").successCount
        + (batchExportForZip failOnFrameB [frameNode, frameNodeB] 2 "PNG").errorNodes.length
      = 2 := by
  obtain ⟨h1, h2, h3⟩ := c10_zip_batch_accounting failOnFrameB 2 "PNG"
    [frameNode, frameNodeB] (by decide) (by decide)
  refine ⟨?_, h2, ?_⟩
  · rw [h1]; decide
  · rw [h3]; decide

/-- C2 counterexample: in zip-batch mode the three-element scenario with a
non-exportable element #2 completes with successCount 2 but zero failure
entries — the non-exportable element is filtered out before the loop and
never reaches the failure list, contradicting the claimed single failure
entry. -/
theorem c2_counterexample :
    canExportNode frameNode = true ∧ canExportNode sliceNode = false
    ∧ canExportNode frameNodeB = true
    ∧ (batchExportForZip alwaysBytes [frameNode, sliceNode, frameNodeB] 2 "PNG").successCount = 2
    ∧ (batchExportForZip alwaysBytes [frameNode, sliceNode, frameNodeB] 2 "PNG").errorNodes = []
    ∧ zipCompleteMsgs
        (batchExportForZip alwaysBytes [frameNode, sliceNode, frameNodeB] 2 "PNG").events
      = [UIMessage.zipBatchComplete 2 0] := by
  refine ⟨rfl, rfl, rfl, by decide, by decide, by decide⟩

/-- C2 amended: for three selected elements of which only element #2 is not
exportable (and the host call succeeds on the others), single-mode export
reports successCount 2 with exactly one failure entry naming element #2 and
two file-ready events in selection order; zip-batch mode filters element #2
out before iterating, so it reports successCount 2 with zero failure entries
and two zip file events in selection order. -/
theorem c2_three_element_scenario :
    ∀ (exportFn : ExportFn) (scale : ℚ) (format : String) (n1 n2 n3 : SceneNode)
      (b1 b3 : List Nat),
      canExportNode n1 = true → canExportNode n2 = false → canExportNode n3 = true →
      exportFn n1 (mkExportSettings format scale) = some b1 →
      exportFn n3 (mkExportSettings format scale) = some b3 →
      ((exportSelection exportFn [n1, n2, n3] scale format).successCount = 2
        ∧ (exportSelection exportFn [n1, n2, n3] scale format).errorNodes = [errorEntry n2]
        ∧ fileReadyMsgs (exportSelection exportFn [n1, n2, n3] scale format).events
          = [UIMessage.fileReady (mkFilename n1 scale format) b1 format,
             UIMessage.fileReady (mkFilename n3 scale format) b3 format])
      ∧ ((batchExportForZip exportFn [n1, n2, n3] scale format).successCount = 2
        ∧ (batchExportForZip exportFn [n1, n2, n3] scale format).errorNodes = []
        ∧ zipFileMsgs (batchExportForZip exportFn [n1, n2, n3] scale format).events
          = [UIMessage.zipFileReady (mkFilename n1 scale format) b1 format,
             UIMessage.zipFileReady (mkFilename n3 scale format) b3 format]) := by
  intro exportFn scale format n1 n2 n3 b1 b3 hc1 hc2 hc3 hf1 hf3
  have hfilter : [n1, n2, n3].filter canExportNode = [n1, n3] := by
    simp [List.filter, hc1, hc2, hc3]
  have h2 : 2 ≤ ([n1, n2, n3] : List SceneNode).length := by simp
  have hx : (([n1, n2, n3] : List SceneNode).filter canExportNode).length ≠ 0 := by
    rw [hfilter]; simp
  refine ⟨⟨?_, ?_, ?_⟩, ?_, ?_, ?_⟩
  · rw [exportSelection_successCount]
    simp [List.filter, hc1, hc2, hc3, hf1, hf3]
  · rw [exportSelection_errorNodes]
    simp [List.filter, hc1, hc2, hc3, hf1, hf3]
  · rw [exportSelection_fileReadyMsgs]
    simp [List.filter, hc1, hc2, hc3, hf1, hf3]
  · rw [batchExportForZip_successCount exportFn scale format _ h2 hx, hfilter]
    simp [List.filter, hf1, hf3]
  · rw [batchExportForZip_errorNodes exportFn scale format _ h2 hx, hfilter]
    simp [List.filter, hf1, hf3]
  · rw [batchExportForZip_zipFileMsgs exportFn scale format _ h2 hx, hfilter]
    simp [List.filter, hf1, hf3]

/-- C2 witness: the amended statement at a concrete frame/slice/frame
selection with an always-succeeding host export. -/
theorem c2_witness :
    (exportSelection alwaysBytes [frameNode, sliceNode, frameNodeB] 2 "PNG").successCount = 2
    ∧ (exportSelection alwaysBytes [frameNode, sliceNode, frameNodeB] 2 "PNG").errorNodes
      = [errorEntry sliceNode]
    ∧ fileReadyMsgs (exportSelection alwaysBytes [frameNode, sliceNode, frameNodeB] 2 "PNG").events
      = [UIMessage.fileReady (mkFilename frameNode 2 "PNG") [0] "PNG",
         UIMessage.fileReady (mkFilename frameNodeB 2 "PNG") [0] "PNG"]
    ∧ (batchExportForZip alwaysBytes [frameNode, sliceNode, frameNodeB] 2 "PNG").successCount
      = 2 := by
  have h := c2_three_element_scenario alwaysBytes 2 "PNG" frameNode sliceNode frameNodeB
    [0] [0] (by decide) (by decide) (by decide) rfl rfl
  exact ⟨h.1.1, h.1.2.1, h.1.2.2, h.2.1⟩

lemma updateSelectionInfo_single_fillCount (node : SceneNode) :
    (updateSelectionInfo [node]).fillCount = (solidPaintData node.fills).1 := rfl

lemma updateSelectionInfo_single_fillColor (node : SceneNode) :
    (updateSelectionInfo [node]).fillColor = (solidPaintData node.fills).2 := rfl

lemma updateSelectionInfo_single_strokeCount (node : SceneNode) :
    (updateSelectionInfo [node]).strokeCount = (solidPaintData node.strokes).1 := rfl

lemma updateSelectionInfo_single_strokeColor (node : SceneNode) :
    (updateSelectionInfo [node]).strokeColor = (solidPaintData node.strokes).2 := rfl

lemma updateSelectionInfo_single_shadow (node : SceneNode) :
    (updateSelectionInfo [node]).shadow = shadowData node.effects := rfl

lemma solidPaintData_fst (paints : Option (List Paint)) :
    (solidPaintData paints).1 = match paints with
      | none => 0
      | some ps => (ps.filter isSolidPaint).length := by
  cases paints <;> rfl

lemma solidPaintData_single (ps : List Paint) (p : Paint) (c : Color)
    (hf : ps.filter isSolidPaint = [p]) (hc : p.color = some c) :
    solidPaintData (some ps) = (1, some ⟨c.r, c.g, c.b, rgbToHex c.r c.g c.b⟩) := by
  simp only [solidPaintData, hf, hc, List.length_cons, List.length_nil, List.head?]
  rfl

lemma solidPaintData_two (ps : List Paint) (p q : Paint)
    (hf : ps.filter isSolidPaint = [p, q]) :
    solidPaintData (some ps) = (2, none) := by
  simp only [solidPaintData, hf]
  rfl

lemma solidPaintData_color_eq (paints : Option (List Paint)) (ci : ColorInfo)
    (h : (solidPaintData paints).2 = some ci) :
    ∃ ps p c, paints = some ps ∧ ps.filter isSolidPaint = [p] ∧ p.color = some c
      ∧ ci = ⟨c.r, c.g, c.b, rgbToHex c.r c.g c.b⟩ ∧ (solidPaintData paints).1 = 1 := by
  cases paints with
  | none => simp [solidPaintData] at h
  | some ps =>
    simp only [solidPaintData] at h
    by_cases hlen : ((ps.filter isSolidPaint).length == 1) = true
    · have hlen' : (ps.filter isSolidPaint).length = 1 := by
        exact beq_iff_eq.mp hlen
      obtain ⟨p, hp⟩ := List.length_eq_one.mp hlen'
      rw [if_pos hlen, hp] at h
      simp only [List.head?] at h
      cases hc : p.color with
      | none => rw [hc] at h; simp at h
      | some c =>
        rw [hc] at h
        simp only [Option.some.injEq] at h
        exact ⟨ps, p, c, rfl, hp, hc, h.symm, by
          simp only [solidPaintData, hp, List.length_cons, List.length_nil]⟩
    · rw [if_neg hlen] at h
      simp at h

/-- C4: in every selection snapshot, fillColor is populated only for a
single-element selection whose element has exactly one solid fill; in that
case fillColor carries that fill's color sample and fillCount is 1; two solid
fills yield fillCount 2 and no fillColor; the same holds for strokes. -/
theorem c4_single_solid_color_invariant :
    (∀ (selection : List SceneNode) (ci : ColorInfo),
      (updateSelectionInfo selection).fillColor = some ci →
      selection.length = 1 ∧ (updateSelectionInfo selection).fillCount = 1
      ∧ ∃ node ps p c, selection = [node] ∧ node.fills = some ps
          ∧ ps.filter isSolidPaint = [p] ∧ p.color = some c
          ∧ ci = ⟨c.r, c.g, c.b, rgbToHex c.r c.g c.b⟩)
    ∧ (∀ (selection : List SceneNode) (ci : ColorInfo),
      (updateSelectionInfo selection).strokeColor = some ci →
      selection.length = 1 ∧ (updateSelectionInfo selection).strokeCount = 1
      ∧ ∃ node ps p c, selection = [node] ∧ node.strokes = some ps
          ∧ ps.filter isSolidPaint = [p] ∧ p.color = some c
          ∧ ci = ⟨c.r, c.g, c.b, rgbToHex c.r c.g c.b⟩)
    ∧ (∀ (node : SceneNode) (ps : List Paint) (p : Paint) (c : Color),
      node.fills = some ps → ps.filter isSolidPaint = [p] → p.color = some c →
      (updateSelectionInfo [node]).fillCount = 1
      ∧ (updateSelectionInfo [node]).fillColor
        = some ⟨c.r, c.g, c.b, rgbToHex c.r c.g c.b⟩)
    ∧ (∀ (node : SceneNode) (ps : List Paint) (p : Paint) (c : Color),
      node.strokes = some ps → ps.filter isSolidPaint = [p] → p.color = some c →
      (updateSelectionInfo [node]).strokeCount = 1
      ∧ (updateSelectionInfo [node]).strokeColor
        = some ⟨c.r, c.g, c.b, rgbToHex c.r c.g c.b⟩)
    ∧ (∀ (node : SceneNode) (ps : List Paint) (p q : Paint),
      node.fills = some ps → ps.filter isSolidPaint = [p, q] →
      (updateSelectionInfo [node]).fillCount = 2
      ∧ (updateSelectionInfo [node]).fillColor = none)
    ∧ (∀ (node : SceneNode) (ps : List Paint) (p q : Paint),
      node.strokes = some ps → ps.filter isSolidPaint = [p, q] →
      (updateSelectionInfo [node]).strokeCount = 2
      ∧ (updateSelectionInfo [node]).strokeColor = none) := by
  refine ⟨?_, ?_, ?_, ?_, ?_, ?_⟩
  · intro selection ci h
    match selection with
    | [] => simp [updateSelectionInfo] at h
    | [node] =>
      rw [updateSelectionInfo_single_fillColor] at h
      obtain ⟨ps, p, c, hps, hf, hc, hci, hcount⟩ := solidPaintData_color_eq node.fills ci h
      exact ⟨rfl, by rw [updateSelectionInfo_single_fillCount]; exact hcount,
        node, ps, p, c, rfl, hps, hf, hc, hci⟩
    | a :: b :: rest => simp [updateSelectionInfo] at h
  · intro selection ci h
    match selection with
    | [] => simp [updateSelectionInfo] at h
    | [node] =>
      rw [updateSelectionInfo_single_strokeColor] at h
      obtain ⟨ps, p, c, hps, hf, hc, hci, hcount⟩ := solidPaintData_color_eq node.strokes ci h
      exact ⟨rfl, by rw [updateSelectionInfo_single_strokeCount]; exact hcount,
        node, ps, p, c, rfl, hps, hf, hc, hci⟩
    | a :: b :: rest => simp [updateSelectionInfo] at h
  · intro node ps p c hps hf hc
    rw [updateSelectionInfo_single_fillCount, updateSelectionInfo_single_fillColor,
      hps, solidPaintData_single ps p c hf hc]
    exact ⟨rfl, rfl⟩
  · intro node ps p c hps hf hc
    rw [updateSelectionInfo_single_strokeCount, updateSelectionInfo_single_strokeColor,
      hps, solidPaintData_single ps p c hf hc]
    exact ⟨rfl, rfl⟩
  · intro node ps p q hps hf
    rw [updateSelectionInfo_single_fillCount, updateSelectionInfo_single_fillColor,
      hps, solidPaintData_two ps p q hf]
    exact ⟨rfl, rfl⟩
  · intro node ps p q hps hf
    rw [updateSelectionInfo_single_strokeCount, updateSelectionInfo_single_strokeColor,
      hps, solidPaintData_two ps p q hf]
    exact ⟨rfl, rfl⟩

/-- C4 witness: a node with exactly one solid fill yields fillCount 1 and
that fill's sample as fillColor; a node with two solid fills yields
fillCount 2 and no fillColor. -/
theorem c4_witness :
    ((updateSelectionInfo [oneFillNode]).fillCount = 1
      ∧ (updateSelectionInfo [oneFillNode]).fillColor
        = some ⟨0, 1, 0, rgbToHex 0 1 0⟩)
    ∧ ((updateSelectionInfo [twoFillNode]).fillCount = 2
      ∧ (updateSelectionInfo [twoFillNode]).fillColor = none) := by
  refine ⟨c4_single_solid_color_invariant.2.2.1 oneFillNode
    [⟨"SOLID", some ⟨0, 1, 0⟩, none⟩, ⟨"GRADIENT_LINEAR", none, none⟩]
    ⟨"SOLID", some ⟨0, 1, 0⟩, none⟩ ⟨0, 1, 0⟩ rfl (by decide) rfl,
    c4_single_solid_color_invariant.2.2.2.2.1 twoFillNode
    [⟨"SOLID", some ⟨1, 0, 0⟩, none⟩, ⟨"SOLID", some ⟨0, 1, 0⟩, none⟩]
    ⟨"SOLID", some ⟨1, 0, 0⟩, none⟩ ⟨"SOLID", some ⟨0, 1, 0⟩, none⟩ rfl (by decide)⟩

/-- C5 counterexample: a solid fill and a solid stroke whose visible flag is
explicitly false are still counted and still become the reported
fillColor/strokeColor — the paint-list filter never consults visibility. -/
theorem c5_counterexample :
    (updateSelectionInfo [hiddenPaintNode]).fillCount = 1
    ∧ (updateSelectionInfo [hiddenPaintNode]).fillColor
      = some ⟨1, 0, 0, rgbToHex 1 0 0⟩
    ∧ (updateSelectionInfo [hiddenPaintNode]).strokeCount = 1
    ∧ (updateSelectionInfo [hiddenPaintNode]).strokeColor
      = some ⟨0, 0, 1, rgbToHex 0 0 1⟩ :=
  ⟨rfl, rfl, rfl, rfl⟩

/-- C5 amended: the paint-list filtering keeps every entry whose type is
solid, regardless of its visibility flag — an explicitly invisible solid
paint still counts and can still become the reported color; the
visibility-not-false and defined-color conditions are applied only to the
shadow-effect list. -/
theorem c5_solid_filter_ignores_visibility :
    (∀ (node : SceneNode) (ps : List Paint), node.fills = some ps →
      (updateSelectionInfo [node]).fillCount = (ps.filter isSolidPaint).length)
    ∧ (∀ (node : SceneNode) (ps : List Paint), node.strokes = some ps →
      (updateSelectionInfo [node]).strokeCount = (ps.filter isSolidPaint).length)
    ∧ (∀ (node : SceneNode) (ps : List Paint) (p : Paint) (c : Color),
      node.fills = some ps → ps.filter isSolidPaint = [p] → p.color = some c →
      (updateSelectionInfo [node]).fillColor
        = some ⟨c.r, c.g, c.b, rgbToHex c.r c.g c.b⟩)
    ∧ (∀ (node : SceneNode) (ps : List Paint) (p : Paint) (c : Color),
      node.strokes = some ps → ps.filter isSolidPaint = [p] → p.color = some c →
      (updateSelectionInfo [node]).strokeColor
        = some ⟨c.r, c.g, c.b, rgbToHex c.r c.g c.b⟩)
    ∧ (∀ (node : SceneNode) (effs : List Effect) (si : ShadowInfo),
      node.effects = some effs →
      si ∈ ((updateSelectionInfo [node]).shadow.getD []) →
      ∃ e ∈ effs, (e.etype == "DROP_SHADOW" || e.etype == "INNER_SHADOW") = true
        ∧ e.visible ≠ some false ∧ e.color = some si.color) := by
  refine ⟨?_, ?_, ?_, ?_, ?_⟩
  · intro node ps hps
    rw [updateSelectionInfo_single_fillCount, hps, solidPaintData_fst]
  · intro node ps hps
    rw [updateSelectionInfo_single_strokeCount, hps, solidPaintData_fst]
  · intro node ps p c hps hf hc
    rw [updateSelectionInfo_single_fillColor, hps, solidPaintData_single ps p c hf hc]
  · intro node ps p c hps hf hc
    rw [updateSelectionInfo_single_strokeColor, hps, solidPaintData_single ps p c hf hc]
  · intro node effs si hne hmem
    rw [updateSelectionInfo_single_shadow, hne] at hmem
    simp only [shadowData] at hmem
    by_cases h1 : ((effs.filter fun e =>
        e.etype == "DROP_SHADOW" || e.etype == "INNER_SHADOW").length > 0)
    · rw [if_pos h1] at hmem
      by_cases h2 : (((effs.filter fun e =>
            e.etype == "DROP_SHADOW" || e.etype == "INNER_SHADOW").filter fun e =>
            e.visible != some false && e.color.isSome).filterMap (fun e =>
            e.color.map fun c =>
              ({ x := (e.offset.map Prod.fst).getD 0,
                 y := (e.offset.map Prod.snd).getD 0,
                 blur := e.radius.getD 0, spread := e.spread.getD 0, color := c,
                 stype := if e.etype == "INNER_SHADOW" then "INNER" else "OUTER" } :
                ShadowInfo))).length == 0
      · rw [if_pos h2] at hmem
        simp at hmem
      · rw [if_neg h2] at hmem
        simp only [Option.getD_some] at hmem
        obtain ⟨e, hemem, heq⟩ := List.mem_filterMap.mp hmem
        obtain ⟨hemem2, hpred⟩ := List.mem_filter.mp hemem
        obtain ⟨hemem3, htype⟩ := List.mem_filter.mp hemem2
        obtain ⟨c, hcolor, hmk⟩ := Option.map_eq_some.mp heq
        refine ⟨e, hemem3, htype, ?_, ?_⟩
        · intro hvis
          rw [hvis] at hpred
          simp at hpred
        · rw [hcolor]
          have : si.color = c := by rw [← hmk]
          rw [this]
    · rw [if_neg h1] at hmem
      simp at hmem

/-- C5 witness: the invisible-solid-fill node instantiates the amended
statement — its explicitly invisible fill is counted and reported. -/
theorem c5_witness :
    (updateSelectionInfo [hiddenPaintNode]).fillCount
      = (([⟨"SOLID", some ⟨1, 0, 0⟩, some false⟩] : List Paint).filter isSolidPaint).length
    ∧ (updateSelectionInfo [hiddenPaintNode]).strokeColor
      = some ⟨0, 0, 1, rgbToHex 0 0 1⟩ :=
  ⟨c5_solid_filter_ignores_visibility.1 hiddenPaintNode
      [⟨"SOLID", some ⟨1, 0, 0⟩, some false⟩] rfl,
    c5_solid_filter_ignores_visibility.2.2.2.1 hiddenPaintNode
      [⟨"SOLID", some ⟨0, 0, 1⟩, some false⟩]
      ⟨"SOLID", some ⟨0, 0, 1⟩, some false⟩ ⟨0, 0, 1⟩ rfl (by decide) rfl⟩

/-- C9: copy-fill-color posts a clipboard message carrying the color of the
first solid fill in paint-list order (here in the default hex format), even
when more solid fills follow; an empty selection, a missing fills array, or
a fills array with no solid entry posts nothing. -/
theorem c9_copy_first_solid_fill :
    (∀ (node : SceneNode) (rest : List SceneNode) (fills : List Paint)
        (p : Paint) (c : Color),
      node.fills = some fills → fills.find? isSolidPaint = some p →
      p.color = some c →
      copyFillColor (node :: rest) none
        = some (UIMessage.copyToClipboard (some (rgbToHex c.r c.g c.b))))
    ∧ (∀ fmt, copyFillColor [] fmt = none)
    ∧ (∀ (node : SceneNode) (rest : List SceneNode) (fmt : Option String),
      node.fills = none → copyFillColor (node :: rest) fmt = none)
    ∧ (∀ (node : SceneNode) (rest : List SceneNode) (fills : List Paint)
        (fmt : Option String),
      node.fills = some fills → fills.find? isSolidPaint = none →
      copyFillColor (node :: rest) fmt = none) := by
  refine ⟨?_, ?_, ?_, ?_⟩
  · intro node rest fills p c hfills hfind hc
    have hsolid : isSolidPaint p = true := List.find?_some hfind
    simp only [copyFillColor, hfills, hfind]
    simp only [getColorFromFill, isSolidPaint] at hsolid ⊢
    rw [hsolid, if_pos rfl, hc]
    rfl
  · intro fmt
    rfl
  · intro node rest fmt hfills
    simp only [copyFillColor, hfills]
  · intro node rest fills fmt hfills hfind
    simp only [copyFillColor, hfills, hfind]

/-- C9 witness: a node with two solid fills still posts the first fill's
color; the second solid fill does not block emission. -/
theorem c9_witness :
    copyFillColor [twoFillNode] none
      = some (UIMessage.copyToClipboard (some (rgbToHex 1 0 0))) :=
  c9_copy_first_solid_fill.1 twoFillNode []
    [⟨"SOLID", some ⟨1, 0, 0⟩, none⟩, ⟨"SOLID", some ⟨0, 1, 0⟩, none⟩]
    ⟨"SOLID", some ⟨1, 0, 0⟩, none⟩ ⟨1, 0, 0⟩ rfl (by decide) rfl

/-- C8: the Preferences Bridge load() is total — for every storage state it
returns a full PreferenceSet, each missing key falling back to its
documented default, and a storage read failure yields exactly the full
default set. -/
theorem c8_load_preferences_total :
    loadPreferences StorageState.readFailure = defaultPreferences
    ∧ loadPreferences (StorageState.ok none none none none) = defaultPreferences
    ∧ (∀ (s : Option ℚ) (f ff sf : Option String),
        loadPreferences (StorageState.ok s f ff sf)
          = ⟨s.getD 2, f.getD "PNG", ff.getD "hex", sf.getD "hex"⟩)
    ∧ (∀ (q : ℚ) (f ff sf : Option String),
        (loadPreferences (StorageState.ok (some q) f ff sf)).scale = q) :=
  ⟨rfl, rfl, fun _ _ _ _ => rfl, fun _ _ _ _ => rfl⟩

lemma string_data_append (a b : String) : (a ++ b).data = a.data ++ b.data := rfl

lemma jsRound_eq_floor (q : ℚ) : jsRound q = ⌊q + 1/2⌋ := by
  unfold jsRound; rw [Rat.floor_def, Rat.floor_def']

lemma jsRound_natCast (k : ℕ) : jsRound (k : ℚ) = (k : ℤ) := by
  rw [jsRound_eq_floor, Int.floor_eq_iff]
  constructor
  · push_cast; linarith
  · push_cast; linarith

lemma toHexByte_div (k : ℕ) : toHexByte ((k : ℚ) / 255) = hexPairStr k := by
  have h : ((k : ℚ) / 255) * 255 = (k : ℚ) := by field_simp
  simp only [toHexByte, hexPairStr, h, jsRound_natCast]

set_option maxRecDepth 4000 in
lemma parsePair_upperPair : ∀ k, k < 256 → parsePair (upperPair k) = some k := by
  decide

lemma upperPair_shape (k : ℕ) (hk : k < 256) :
    ∃ c1 c2, upperPair k = [c1, c2] ∧ hexPairValue c1 c2 = some k := by
  have h := parsePair_upperPair k hk
  match hup : upperPair k with
  | [c1, c2] => rw [hup] at h; exact ⟨c1, c2, rfl, h⟩
  | [] => rw [hup] at h; simp [parsePair] at h
  | [c] => rw [hup] at h; simp [parsePair] at h
  | c1 :: c2 :: c3 :: tl => rw [hup] at h; simp [parsePair] at h

lemma rgbToHex_data (r g b : ℚ) :
    (rgbToHex r g b).data
      = '#' :: ((toHexByte r).data.map Char.toUpper
          ++ ((toHexByte g).data.map Char.toUpper
            ++ (toHexByte b).data.map Char.toUpper)) := by
  show ("#" ++ toHexByte r ++ toHexByte g ++ toHexByte b).data.map Char.toUpper = _
  rw [string_data_append, string_data_append, string_data_append]
  simp [List.map_append]

/-- C7: the hex encoding round-trips at 1/255 granularity — for channels of
the form k/255 with k in [0,255], decoding the string produced by rgbToHex
recovers exactly those channels, and re-encoding them yields the identical
string. -/
theorem c7_hex_roundtrip (kr kg kb : ℕ)
    (hr : kr ≤ 255) (hg : kg ≤ 255) (hb : kb ≤ 255) :
    hexToRgb (rgbToHex ((kr : ℚ) / 255) ((kg : ℚ) / 255) ((kb : ℚ) / 255))
      = some ((kr : ℚ) / 255, (kg : ℚ) / 255, (kb : ℚ) / 255)
    ∧ ∀ r g b : ℚ,
      hexToRgb (rgbToHex ((kr : ℚ) / 255) ((kg : ℚ) / 255) ((kb : ℚ) / 255))
        = some (r, g, b) →
      rgbToHex r g b
        = rgbToHex ((kr : ℚ) / 255) ((kg : ℚ) / 255) ((kb : ℚ) / 255) := by
  obtain ⟨c1, c2, hup1, hv1⟩ := upperPair_shape kr (by omega)
  obtain ⟨d1, d2, hup2, hv2⟩ := upperPair_shape kg (by omega)
  obtain ⟨e1, e2, hup3, hv3⟩ := upperPair_shape kb (by omega)
  have hdata : (rgbToHex ((kr : ℚ) / 255) ((kg : ℚ) / 255) ((kb : ℚ) / 255)).data
      = ['#', c1, c2, d1, d2, e1, e2] := by
    rw [rgbToHex_data, toHexByte_div, toHexByte_div, toHexByte_div]
    show '#' :: (upperPair kr ++ (upperPair kg ++ upperPair kb)) = _
    rw [hup1, hup2, hup3]
    rfl
  have hmain : hexToRgb (rgbToHex ((kr : ℚ) / 255) ((kg : ℚ) / 255) ((kb : ℚ) / 255))
      = some ((kr : ℚ) / 255, (kg : ℚ) / 255, (kb : ℚ) / 255) := by
    simp only [hexToRgb, hdata, hv1, hv2, hv3]
  refine ⟨hmain, ?_⟩
  intro r g b h
  rw [hmain] at h
  simp only [Option.some.injEq, Prod.mk.injEq] at h
  rw [← h.1, ← h.2.1, ← h.2.2]

/-- C7 witness: the round trip at the concrete channels 255/255, 0/255,
128/255 decodes back to exactly those channels. -/
theorem c7_witness :
    hexToRgb (rgbToHex ((255 : ℕ) / 255 : ℚ) ((0 : ℕ) / 255 : ℚ) ((128 : ℕ) / 255 : ℚ))
      = some (((255 : ℕ) : ℚ) / 255, ((0 : ℕ) : ℚ) / 255, ((128 : ℕ) : ℚ) / 255) :=
  (c7_hex_roundtrip 255 0 128 (by decide) (by decide) (by decide)).1

end FigElemental
